import Mathlib

/-!
Verification of the repository-analysis service: a shallow embedding of
`src/repo_manager.py`, `src/assistant.py` and `src/endpoints.py`.

Modelling conventions:
* Python JSON-like values (`dict` / `str` / numbers) are the inductive `PyVal`.
  Python dicts preserve insertion order; they are modelled as ordered
  association lists, with assignment `d[k] = v` as `dictSet` (replace in
  place when the key is present, append otherwise).
* Redis is a key-value store with per-entry expiry (`setex`).  The code
  stores `json.dumps(value)` and reads it back with `json.loads`; for the
  values involved (string-keyed dicts of strings and numbers) this
  round-trips, so the store holds the structured value directly.  The repo
  cache (`repo_cache:` keys) holds `PyVal`s, the analysis cache
  (`ai_analysis:` keys) holds plain strings; the two key spaces are
  disjoint, so they are modelled as two typed stores.
* Wall-clock time is an abstract `Nat` of time-units.
* The remote GitHub API is an oracle `RemoteApi`: the listing GET and each
  per-file GET either produce an HTTP response (status + body) or raise a
  transport exception (`HttpOutcome.exc`), which is what `aiohttp` can do.
* A Celery task body that returns normally leaves the task in the SUCCESS
  state; a body that raises leaves it in FAILURE (`celeryRunState`).
-/

/-- A Python JSON-like value: strings, numbers, and insertion-ordered dicts. -/
inductive PyVal where
  | str (s : String)
  | num (n : Nat)
  | dict (entries : List (String × PyVal))
deriving Repr

/-- Python dict assignment `d[k] = v`: replace in place if `k` is present,
otherwise append at the end. -/
def dictSet {α : Type} (d : List (String × α)) (k : String) (v : α) :
    List (String × α) :=
  if d.any (fun p => p.1 = k) then
    d.map (fun p => if p.1 = k then (k, v) else p)
  else d ++ [(k, v)]

/-- The keys of a dict value, in insertion order (`[]` for non-dicts). -/
def dictKeys : PyVal → List String
  | .dict es => es.map Prod.fst
  | _ => []

/-- The dict `{"error": msg}` that `fetch_repo_contents` returns on each of
its failure paths. -/
def errorDict (msg : String) : PyVal := .dict [("error", .str msg)]

/-- A Redis-like store: each key maps to a value plus an absolute expiry
instant (`setex` semantics). -/
structure KVStore (α : Type) where
  entries : List (String × (α × Nat))
deriving Repr, DecidableEq

/-- The empty store. -/
def emptyKV {α : Type} : KVStore α := ⟨[]⟩

/-- `redis.get`: a present entry is returned while `now` is before its
expiry instant, and treated as absent afterwards (lazy expiry). -/
def kvGet {α : Type} (st : KVStore α) (now : Nat) (k : String) : Option α :=
  match st.entries.find? (fun e => e.1 = k) with
  | some (_, (v, exp)) => if now < exp then some v else none
  | none => none

/-- `redis.setex key ttl v` at instant `now`: overwrite the key with value
`v` expiring at `now + ttl`. -/
def kvSetex {α : Type} (st : KVStore α) (now : Nat) (k : String) (ttl : Nat)
    (v : α) : KVStore α :=
  ⟨(k, (v, now + ttl)) :: st.entries.filter (fun e => ¬ e.1 = k)⟩

/-- `CACHE_EXPIRY = 86400` (24 hours, in seconds). -/
def CACHE_EXPIRY : Nat := 86400

/-- Outcome of one HTTP `GET`: a response with a status code and a body, or
a raised transport exception. -/
inductive HttpOutcome (α : Type) where
  | resp (status : Nat) (body : α)
  | exc (msg : String)
deriving Repr, DecidableEq

/-- One entry of the GitHub contents listing: its `path`, `type`
(`"file"` or `"dir"`), and `download_url` fields. -/
structure ListingEntry where
  path : String
  type : String
  download_url : String
deriving Repr, DecidableEq

/-- The remote GitHub API as seen by one fetch: the outcome of the listing
`GET` per URL, and the outcome of each per-file raw-content `GET` per URL. -/
structure RemoteApi where
  listing : String → HttpOutcome (List ListingEntry)
  fileResp : String → HttpOutcome String

/-- `fetch_file_content` (repo_manager.py): returns the body on HTTP 200,
the marker string `"Error fetching file: <status>"` on any other status;
a transport exception from the `GET` propagates (`Except.error`). -/
def fetch_file_content (fileResp : String → HttpOutcome String)
    (file_url : String) : Except String String :=
  match fileResp file_url with
  | .resp s text =>
      if s = 200 then .ok text
      else .ok ("Error fetching file: " ++ toString s)
  | .exc m => .error m

/-- `asyncio.gather` over per-file retrievals: results are collected in
task order; any raised exception propagates out of the gather. -/
def gatherFetch (fileResp : String → HttpOutcome String) :
    List String → Except String (List String)
  | [] => .ok []
  | u :: us =>
    match fetch_file_content fileResp u with
    | .error m => .error m
    | .ok c =>
      match gatherFetch fileResp us with
      | .error m => .error m
      | .ok cs => .ok (c :: cs)

/-- `process_repo_files` (repo_manager.py): launch one retrieval per
listing entry of type `"file"`, `asyncio.gather` them (any raised
exception propagates), then `zip(file_data, file_contents)` — note the
zip is over the UNFILTERED listing — and assign into the result dict by
`path`. -/
def process_repo_files (fileResp : String → HttpOutcome String)
    (file_data : List ListingEntry) :
    Except String (List (String × String)) :=
  let tasks := (file_data.filter (fun f => f.type = "file")).map
    (fun f => f.download_url)
  match gatherFetch fileResp tasks with
  | .error m => .error m
  | .ok file_contents =>
    .ok ((List.zip file_data file_contents).foldl
      (fun d p => dictSet d p.1.path p.2) [])

/-- Python `str.strip(c)`: remove leading and trailing occurrences of the
character `c`. -/
def pyStrip (s : String) (c : Char) : String :=
  String.mk (((s.toList.dropWhile (· = c)).reverse.dropWhile (· = c)).reverse)

/-- Python `str.split(sep)` for a one-character separator: split at every
occurrence, keeping empty pieces (`"".split(sep) == [""]`). -/
def splitOnChar (sep : Char) : List Char → List (List Char)
  | [] => [[]]
  | c :: cs =>
    let rest := splitOnChar sep cs
    if c = sep then [] :: rest
    else match rest with
      | r :: rs => (c :: r) :: rs
      | [] => [[c]]

/-- `extract_repo_details` (repo_manager.py): strip slashes, split on
`"/"`; with at least two parts return `(parts[-2], parts[-1])`, else
`(None, None)`. -/
def extract_repo_details (repo_url : String) :
    Option String × Option String :=
  let parts := (splitOnChar '/' (pyStrip repo_url '/').toList).map String.mk
  match parts.reverse with
  | last :: second_last :: _ => (some second_last, some last)
  | _ => (none, none)

/-- Python falsiness of an `Optional[str]`: `None` and `""` are falsy. -/
def pyFalsyStrOpt : Option String → Bool
  | none => true
  | some s => s = ""

/-- The result of one run of `fetch_repo_contents`: the returned dict, the
repo-cache store after the run, and how many remote listing / per-file
content `GET`s were issued. -/
structure FetchOutcome where
  result : PyVal
  cache : KVStore PyVal
  listingCalls : Nat
  contentCalls : Nat
deriving Repr

/-- Number of per-file retrievals launched for a listing (one per entry of
type `"file"`). -/
def numFileCalls (file_data : List ListingEntry) : Nat :=
  (file_data.filter (fun f => f.type = "file")).length

/-- `fetch_repo_contents` (repo_manager.py): check the `repo_cache:` key
first (a hit returns the cached value with no parsing and no network
call); on a miss parse owner/name (falsy values fail fast with the
invalid-URL error), then issue the listing `GET` and branch on its status
(200 / 403 / 404 / other / exception).  The `try` block spans the listing
call and `process_repo_files`, so an exception raised by a per-file
retrieval is also caught and converted to the generic error dict.  Only
the success path writes the cache. -/
def fetch_repo_contents (remote : RemoteApi) (st : KVStore PyVal)
    (now : Nat) (repo_url : String) : FetchOutcome :=
  let cache_key := "repo_cache:" ++ repo_url
  match kvGet st now cache_key with
  | some cached => { result := cached, cache := st,
                     listingCalls := 0, contentCalls := 0 }
  | none =>
    let rd := extract_repo_details repo_url
    if pyFalsyStrOpt rd.1 || pyFalsyStrOpt rd.2 then
      { result := errorDict "Invalid GitHub repository URL format.",
        cache := st, listingCalls := 0, contentCalls := 0 }
    else
      let api_url := "https://api.github.com/repos/" ++
        rd.1.getD "" ++ "/" ++ rd.2.getD "" ++ "/contents"
      match remote.listing api_url with
      | .resp status file_data =>
        if status = 200 then
          match process_repo_files remote.fileResp file_data with
          | .ok repo_files =>
            let repo_cache : PyVal := .dict
              [("repo_url", .str repo_url),
               ("files", .dict (repo_files.map (fun p => (p.1, PyVal.str p.2)))),
               ("timestamp", .num now)]
            { result := repo_cache,
              cache := kvSetex st now cache_key CACHE_EXPIRY repo_cache,
              listingCalls := 1, contentCalls := numFileCalls file_data }
          | .error _ =>
            { result := errorDict "An error occurred while fetching the repository.",
              cache := st, listingCalls := 1,
              contentCalls := numFileCalls file_data }
        else if status = 403 then
          { result := errorDict "GitHub API rate limit exceeded. Try again later.",
            cache := st, listingCalls := 1, contentCalls := 0 }
        else if status = 404 then
          { result := errorDict "Repository not found. Check if the URL is correct.",
            cache := st, listingCalls := 1, contentCalls := 0 }
        else
          { result := errorDict ("Unexpected error from GitHub API: " ++ toString status),
            cache := st, listingCalls := 1, contentCalls := 0 }
      | .exc _ =>
        { result := errorDict "An error occurred while fetching the repository.",
          cache := st, listingCalls := 1, contentCalls := 0 }

/-- `fetch_repo_contents_task` (repo_manager.py): the Celery task body just
runs `fetch_repo_contents` and returns its dict.  Every failure path of
`fetch_repo_contents` is a `return` of an error dict, not a raise, so
for every remote behaviour the body returns normally (`Except.ok`). -/
def fetch_repo_contents_task (remote : RemoteApi) (st : KVStore PyVal)
    (now : Nat) (repo_url : String) : Except String FetchOutcome :=
  .ok (fetch_repo_contents remote st now repo_url)

/-- The Celery state a task ends in: a body that returns normally leaves
the task in SUCCESS, a body that raises leaves it in FAILURE. -/
inductive CeleryTaskState where
  | success
  | failure
deriving Repr, DecidableEq

/-- Map a task-body run to the Celery state it produces. -/
def celeryRunState {α : Type} : Except String α → CeleryTaskState
  | .ok _ => .success
  | .error _ => .failure

/-- JSON rendering of a string: quotes around the characters.  (The escape
rules of `json.dumps` are irrelevant to the equality properties proved
here, since both sides are rendered by the same function.) -/
def jsonStr (s : String) : String := "\"" ++ s ++ "\""

/-- Sort an association list by key, as `json.dumps(..., sort_keys=True)`
does at each dict level (lexicographic code-point order, as in Python). -/
def sortByFst {α : Type} (l : List (String × α)) : List (String × α) :=
  l.mergeSort (fun a b => decide (a.1 ≤ b.1))

mutual

/-- `json.dumps(v, sort_keys=True)`: dict entries are rendered with their
keys in sorted order, with the default `", "` and `": "` separators. -/
def pyDumps : PyVal → String
  | .str s => jsonStr s
  | .num n => toString n
  | .dict es =>
      "\x7b" ++ String.intercalate ", "
        ((sortByFst (pyDumpsEntries es)).map
          (fun p => jsonStr p.1 ++ ": " ++ p.2)) ++ "\x7d"

/-- Render each entry's value of a dict, in insertion order (sorting by
key happens afterwards in `pyDumps`). -/
def pyDumpsEntries : List (String × PyVal) → List (String × String)
  | [] => []
  | (k, v) :: rest => (k, pyDumps v) :: pyDumpsEntries rest

end

/-- The analysis cache key of `analyze_code_task`:
`f"ai_analysis:{hash(json.dumps(repo_data, sort_keys=True))}"`.  `hashFn`
models Python's builtin `hash` on strings, a fixed function within one
interpreter process. -/
def analysisCacheKey (hashFn : String → Int) (repo_data : PyVal) : String :=
  "ai_analysis:" ++ toString (hashFn (pyDumps repo_data))

/-- Outcome of the single inference call: the completion content, or a
raised `openai.error.OpenAIError` with its message. -/
inductive AIOutcome where
  | success (content : String)
  | openaiError (msg : String)
deriving Repr, DecidableEq

/-- The result of one run of `analyze_code_task`: the value the task body
returned (or the exception it raised), the analysis-cache store after the
run, and how many inference calls were made. -/
structure AnalyzeOutcome where
  ret : Except String String
  cache : KVStore String
  inferenceCalls : Nat
deriving Repr

/-- The `try` block of `analyze_code_task` (assistant.py): call the
inference service; on success write the result to the cache with
`CACHE_EXPIRY` and produce it; an `OpenAIError` raised by the call
propagates out of the block. -/
def analyze_code_try (ai : AIOutcome) (st : KVStore String) (now : Nat)
    (cache_key : String) : Except String (String × KVStore String) :=
  match ai with
  | .success content =>
      .ok (content, kvSetex st now cache_key CACHE_EXPIRY content)
  | .openaiError m => .error m

/-- `analyze_code_task` (assistant.py): missing API key returns an error
string; then the cache is checked by `analysisCacheKey` (a hit returns the
cached string with no inference call); on a miss the `try` block runs and
its `except openai.error.OpenAIError` handler RETURNS the string
`"Error: " ++ msg` — so every modelled path returns normally. -/
def analyze_code_task (hashFn : String → Int) (hasApiKey : Bool)
    (ai : AIOutcome) (st : KVStore String) (now : Nat) (repo_data : PyVal) :
    AnalyzeOutcome :=
  if hasApiKey = false then
    { ret := .ok "Error: OpenAI API key is missing.", cache := st,
      inferenceCalls := 0 }
  else
    let cache_key := analysisCacheKey hashFn repo_data
    match kvGet st now cache_key with
    | some cached => { ret := .ok cached, cache := st, inferenceCalls := 0 }
    | none =>
      match analyze_code_try ai st now cache_key with
      | .ok (analysis_result, st2) =>
          { ret := .ok analysis_result, cache := st2, inferenceCalls := 1 }
      | .error m =>
          { ret := .ok ("Error: " ++ m), cache := st, inferenceCalls := 1 }

/-- What one iteration of the Gateway's loop observes about the fetch task
it just enqueued: not yet terminal, terminal-failed (body raised), or
terminal-succeeded with the task's returned dict. -/
inductive TaskObs where
  | pending
  | failed
  | succeeded (repo_data : PyVal)

/-- Externally visible actions of the `analyze_repo` endpoint, in order. -/
inductive GwEvent where
  | enqueueFetch
  | checkState
  | sleep (n : Nat)
  | enqueueAnalysis (repo_data : PyVal)

/-- The JSON response `analyze_repo` returns to the caller. -/
inductive GwResponse where
  | taskStarted (repo_data : PyVal) (message : String)
  | errorResp (error : String)
  | statusMessage (message : String)

/-- The body of `analyze_repo`'s `for attempt in range(3)` loop
(endpoints.py), with the remaining iteration count explicit.  Each
iteration enqueues a fresh fetch task and checks its state: succeeded →
enqueue the analysis task on its result and return "AI analysis started";
failed → sleep and double the backoff unless this was the last attempt,
which returns the failure message; not ready → sleep and double the
backoff (also on the last attempt, whose sleep precedes the fall-through
"still in progress" response). -/
def analyze_repo_go (obs : Nat → TaskObs) :
    Nat → Nat → Nat → List GwEvent × GwResponse
  | 0, _, _ =>
    ([], .statusMessage
      "Repository fetching is still in progress. Please check task status.")
  | rem + 1, attempt, backoff =>
    match obs attempt with
    | .succeeded repo_data =>
        ([.enqueueFetch, .checkState, .enqueueAnalysis repo_data],
         .taskStarted repo_data "AI analysis started")
    | .failed =>
        if rem = 0 then
          ([.enqueueFetch, .checkState],
           .errorResp "Repository fetching failed after multiple attempts. Unable to proceed with analysis.")
        else
          let next := analyze_repo_go obs rem (attempt + 1) (backoff * 2)
          (.enqueueFetch :: .checkState :: .sleep backoff :: next.1, next.2)
    | .pending =>
        let next := analyze_repo_go obs rem (attempt + 1) (backoff * 2)
        (.enqueueFetch :: .checkState :: .sleep backoff :: next.1, next.2)

/-- `analyze_repo` (endpoints.py): `retry_attempts = 3`,
`backoff_time = 2`, then the loop. -/
def analyze_repo (obs : Nat → TaskObs) : List GwEvent × GwResponse :=
  analyze_repo_go obs 3 0 2

/-- Is this event a state check? -/
def isCheck : GwEvent → Bool
  | .checkState => true
  | _ => false

/-- Is this event an Analysis-Task enqueue? -/
def isEnqueueAnalysis : GwEvent → Bool
  | .enqueueAnalysis _ => true
  | _ => false

/-- Number of state checks in an event trace. -/
def numChecks (evs : List GwEvent) : Nat := (evs.filter isCheck).length

/-- The sleep amount of a sleep event. -/
def sleepAmount : GwEvent → Option Nat
  | .sleep n => some n
  | _ => none

/-- The backoff delays occurring between state checks: the sleep amounts
found after the first check and before the last check of the trace. -/
def delaysBetweenChecks (evs : List GwEvent) : List Nat :=
  (((evs.dropWhile (fun e => !isCheck e)).reverse.dropWhile
    (fun e => !isCheck e)).reverse).filterMap sleepAmount

/-- A record the Celery result backend holds for a finished or running
task: its state string and its (stringified) result. -/
structure TaskRecord where
  state : String
  result : String
deriving Repr, DecidableEq

/-- `AsyncResult(task_id).state` against a result store.  For an id the
backend has no record of, Celery reports `"PENDING"` (documented Celery
behaviour: an unknown id is indistinguishable from a not-yet-started
task). -/
def asyncResultState (store : List (String × TaskRecord))
    (task_id : String) : String :=
  match store.find? (fun e => e.1 = task_id) with
  | some (_, r) => r.state
  | none => "PENDING"

/-- `AsyncResult(task_id).result` against a result store (`none` when the
backend has no record). -/
def asyncResultValue (store : List (String × TaskRecord))
    (task_id : String) : Option String :=
  (store.find? (fun e => e.1 = task_id)).map (fun e => e.2.result)

/-- The JSON body `get_task_status` returns on its non-raising paths. -/
structure StatusBody where
  task_id : String
  status : String
  result : Option String
deriving Repr, DecidableEq

/-- What the caller of `GET /task-status/{task_id}` receives: a JSON body,
or a structured HTTP error response (FastAPI renders a raised
`HTTPException` as a JSON error with that status code — never an unhandled
fault). -/
inductive StatusResponse where
  | ok (body : StatusBody)
  | httpError (statusCode : Nat) (detail : String)
deriving Repr, DecidableEq

/-- Exceptions that can leave the `try` block of `get_task_status`. -/
inductive PyExc where
  | httpExc (code : Nat) (detail : String)
  | attrError (msg : String)
  | otherError (msg : String)
deriving Repr, DecidableEq

/-- The `try` block of `get_task_status` (endpoints.py): `backend = none`
models `task_result.backend is None`, which raises an
`HTTPException(500)`; otherwise branch on the task state: `"PENDING"` →
result `None`; `"FAILURE"` → the stringified result; any other state →
the result only when `successful()` (state `"SUCCESS"`) holds. -/
def get_task_status_try (backend : Option (List (String × TaskRecord)))
    (task_id : String) : Except PyExc StatusBody :=
  match backend with
  | none =>
      .error (.httpExc 500 "Celery result backend is not configured correctly.")
  | some store =>
    let state := asyncResultState store task_id
    if state = "PENDING" then .ok ⟨task_id, "PENDING", none⟩
    else if state = "FAILURE" then
      .ok ⟨task_id, "FAILURE", some ((asyncResultValue store task_id).getD "")⟩
    else
      .ok ⟨task_id, state,
           if state = "SUCCESS" then asyncResultValue store task_id else none⟩

/-- `get_task_status` (endpoints.py): the `try` block above with its
handlers.  `except AttributeError` converts to a 500 about the result
backend; `except Exception` converts everything else — including the
`HTTPException` the `try` block itself raises on a missing backend — to
the generic 500.  Every path yields a structured response. -/
def get_task_status (backend : Option (List (String × TaskRecord)))
    (task_id : String) : StatusResponse :=
  match get_task_status_try backend task_id with
  | .ok body => .ok body
  | .error (.attrError _) =>
      .httpError 500 "Celery task result backend is not properly configured."
  | .error _ =>
      .httpError 500 "Internal Server Error - Failed to retrieve task status."

/-! ## Claims -/

/-- C1: for every analysis request whose fetch task never reaches a
terminal state (stays Pending forever), the Gateway's retry loop performs
exactly 3 state checks, with backoff delays of 2 and 4 time-units between
them, then returns the "still in progress" message to the caller; it
never performs a 4th check. -/
theorem analyze_repo_retry_bound (obs : Nat → TaskObs)
    (h : ∀ i, obs i = .pending) :
    numChecks (analyze_repo obs).1 = 3 ∧
    delaysBetweenChecks (analyze_repo obs).1 = [2, 4] ∧
    (analyze_repo obs).2 = .statusMessage
      "Repository fetching is still in progress. Please check task status." := by
  have e : analyze_repo obs =
      ([.enqueueFetch, .checkState, .sleep 2,
        .enqueueFetch, .checkState, .sleep 4,
        .enqueueFetch, .checkState, .sleep 8],
       .statusMessage
        "Repository fetching is still in progress. Please check task status.") := by
    simp [analyze_repo, analyze_repo_go, h 0, h 1, h 2]
  rw [e]
  exact ⟨rfl, rfl, rfl⟩

/-- Witness for C1 at the constant-Pending observation. -/
theorem analyze_repo_retry_bound_witness :
    (∀ i : Nat, (fun _ => TaskObs.pending) i = TaskObs.pending) ∧
    (numChecks (analyze_repo (fun _ => TaskObs.pending)).1 = 3 ∧
     delaysBetweenChecks (analyze_repo (fun _ => TaskObs.pending)).1 = [2, 4] ∧
     (analyze_repo (fun _ => TaskObs.pending)).2 = .statusMessage
       "Repository fetching is still in progress. Please check task status.") :=
  ⟨fun _ => rfl,
   analyze_repo_retry_bound (fun _ => TaskObs.pending) (fun _ => rfl)⟩

/-- C2 (bug): `process_repo_files` zips the UNFILTERED listing with the
filtered contents, so with a directory entry listed before a file entry
the file's retrieved content is keyed by the directory's path and the
file's own path is absent — not one entry per file-type entry keyed by
that file's path as the code's own docstring and "Skip directories"
comment intend. -/
theorem process_repo_files_zip_bug :
    process_repo_files
      (fun u => if u = "uR" then .resp 200 "hello" else .exc "unused")
      [⟨"docs", "dir", "uD"⟩, ⟨"README.md", "file", "uR"⟩]
      = .ok [("docs", "hello")] ∧
    ([("docs", "hello")] : List (String × String)).map Prod.fst
      ≠ ["README.md"] :=
  ⟨rfl, by decide⟩

/-- Helper: a cache hit short-circuits `fetch_repo_contents`. -/
theorem fetch_repo_contents_hit (remote : RemoteApi) (st : KVStore PyVal)
    (now : Nat) (url : String) (v : PyVal)
    (hhit : kvGet st now ("repo_cache:" ++ url) = some v) :
    fetch_repo_contents remote st now url
      = { result := v, cache := st, listingCalls := 0, contentCalls := 0 } := by
  simp [fetch_repo_contents, hhit]

/-- Helper: when every per-file `GET` yields an HTTP response (no raised
transport exception), the gather of retrievals succeeds. -/
theorem gatherFetch_ok (fr : String → HttpOutcome String)
    (hfiles : ∀ u, ∃ s t, fr u = .resp s t) (tasks : List String) :
    ∃ l, gatherFetch fr tasks = .ok l := by
  induction tasks with
  | nil => exact ⟨[], rfl⟩
  | cons a as ih =>
      obtain ⟨l, hl⟩ := ih
      obtain ⟨s, t, hs⟩ := hfiles a
      by_cases h200 : s = 200
      · exact ⟨t :: l, by simp [gatherFetch, fetch_file_content, hs, h200, hl]⟩
      · exact ⟨("Error fetching file: " ++ toString s) :: l,
          by simp [gatherFetch, fetch_file_content, hs, h200, hl]⟩

/-- Helper: when every per-file `GET` yields an HTTP response,
`process_repo_files` returns a dict. -/
theorem process_repo_files_ok (fr : String → HttpOutcome String)
    (hfiles : ∀ u, ∃ s t, fr u = .resp s t) (file_data : List ListingEntry) :
    ∃ d, process_repo_files fr file_data = .ok d := by
  obtain ⟨l, hl⟩ := gatherFetch_ok fr hfiles
    ((file_data.filter (fun f => f.type = "file")).map (fun f => f.download_url))
  exact ⟨(List.zip file_data l).foldl (fun d p => dictSet d p.1.path p.2) [],
    by simp [process_repo_files, hl]⟩

/-- C3 (counterexample): a remote whose listing call succeeds (HTTP 200)
but whose single per-file retrieval raises a transport exception. -/
def remoteFileExc : RemoteApi :=
  { listing := fun _ => .resp 200 [⟨"a.txt", "file", "uA"⟩],
    fileResp := fun _ => .exc "connection reset" }

/-- C3 is false as stated: with a successful top-level listing but a
per-file retrieval that raises a transport exception, the whole fetch
returns the generic error dict instead of a Snapshot — the fetch fails
even though the top-level listing call succeeded. -/
theorem fetch_fails_on_per_file_exception :
    remoteFileExc.listing "https://api.github.com/repos/acme/widgets/contents"
      = .resp 200 [⟨"a.txt", "file", "uA"⟩] ∧
    (fetch_repo_contents remoteFileExc emptyKV 0
        "https://github.com/acme/widgets").result
      = errorDict "An error occurred while fetching the repository." :=
  ⟨rfl, rfl⟩

/-- C3 (amended): per-file retrievals that complete with a non-200 status
do not abort the fetch — their content is the error marker string — and
the fetch returns a Snapshot whenever the listing succeeds and no
per-file retrieval raises; but a raised per-file transport exception
aborts the whole fetch, so the fetch can fail even when the listing call
succeeds. -/
theorem fetch_tolerates_per_file_http_errors (remote : RemoteApi)
    (st : KVStore PyVal) (now : Nat) (url : String)
    (fd : List ListingEntry)
    (hmiss : kvGet st now ("repo_cache:" ++ url) = none)
    (hvalid : (pyFalsyStrOpt (extract_repo_details url).1
        || pyFalsyStrOpt (extract_repo_details url).2) = false)
    (hlist : ∀ u, remote.listing u = .resp 200 fd)
    (hfiles : ∀ u, ∃ s t, remote.fileResp u = .resp s t) :
    dictKeys (fetch_repo_contents remote st now url).result
      = ["repo_url", "files", "timestamp"] ∧
    (∀ u s t, remote.fileResp u = .resp s t → s ≠ 200 →
      fetch_file_content remote.fileResp u
        = .ok ("Error fetching file: " ++ toString s)) := by
  constructor
  · obtain ⟨d, hd⟩ := process_repo_files_ok remote.fileResp hfiles fd
    simp [fetch_repo_contents, hmiss, hvalid, hlist, hd, dictKeys]
  · intro u s t hu hs
    simp [fetch_file_content, hu, hs]

/-- Witness remote for the amended C3: two files, one retrieved with
HTTP 200 and one with HTTP 500 (no exceptions). -/
def remoteC3w : RemoteApi :=
  { listing := fun _ => .resp 200
      [⟨"a.txt", "file", "uA"⟩, ⟨"b.txt", "file", "uB"⟩],
    fileResp := fun u => if u = "uA" then .resp 200 "A" else .resp 500 "x" }

/-- Witness for the amended C3 at a concrete remote and URL. -/
theorem fetch_tolerates_per_file_http_errors_witness :
    kvGet (emptyKV (α := PyVal)) 0 ("repo_cache:" ++ "https://github.com/acme/widgets") = none ∧
    (pyFalsyStrOpt (extract_repo_details "https://github.com/acme/widgets").1
        || pyFalsyStrOpt (extract_repo_details "https://github.com/acme/widgets").2) = false ∧
    (∀ u, remoteC3w.listing u = .resp 200
      [⟨"a.txt", "file", "uA"⟩, ⟨"b.txt", "file", "uB"⟩]) ∧
    (∀ u, ∃ s t, remoteC3w.fileResp u = .resp s t) ∧
    (dictKeys (fetch_repo_contents remoteC3w emptyKV 0
        "https://github.com/acme/widgets").result
      = ["repo_url", "files", "timestamp"] ∧
    (∀ u s t, remoteC3w.fileResp u = .resp s t → s ≠ 200 →
      fetch_file_content remoteC3w.fileResp u
        = .ok ("Error fetching file: " ++ toString s))) :=
  ⟨rfl, rfl,
   fun _ => rfl,
   fun u => if h : u = "uA"
     then ⟨200, "A", by simp [remoteC3w, h]⟩
     else ⟨500, "x", by simp [remoteC3w, h]⟩,
   fetch_tolerates_per_file_http_errors remoteC3w emptyKV 0
     "https://github.com/acme/widgets"
     [⟨"a.txt", "file", "uA"⟩, ⟨"b.txt", "file", "uB"⟩]
     rfl rfl (fun _ => rfl)
     (fun u => if h : u = "uA"
       then ⟨200, "A", by simp [remoteC3w, h]⟩
       else ⟨500, "x", by simp [remoteC3w, h]⟩)⟩

/-- C4 is false as stated: when the inference call raises an
`OpenAIError`, `analyze_code_task` does NOT reach the Celery FAILURE
state — its `except` handler returns the string `"Error: " ++ msg`, so
the task body returns normally and the task ends in SUCCESS; the error
message is kept only as a suffix of that returned string, not verbatim
alone. -/
theorem analyze_error_task_succeeds :
    (analyze_code_task (fun _ => 0) true (.openaiError "boom")
        emptyKV 0 (.str "snap")).ret = .ok "Error: boom" ∧
    celeryRunState (analyze_code_task (fun _ => 0) true (.openaiError "boom")
        emptyKV 0 (.str "snap")).ret = .success ∧
    CeleryTaskState.success ≠ CeleryTaskState.failure :=
  ⟨rfl, rfl, by decide⟩

/-- C4 (amended): on a cache miss whose inference call raises an
`OpenAIError`, the Analysis Task completes normally (Celery SUCCESS, not
Failed), returning `"Error: "` followed by the inference error's message
— the message is preserved as a suffix, not verbatim alone — and nothing
is written to the cache on that path. -/
theorem analyze_inference_error_behaviour (hashFn : String → Int)
    (m : String) (st : KVStore String) (now : Nat) (repo_data : PyVal)
    (hmiss : kvGet st now (analysisCacheKey hashFn repo_data) = none) :
    (analyze_code_task hashFn true (.openaiError m) st now repo_data).ret
      = .ok ("Error: " ++ m) ∧
    celeryRunState
      (analyze_code_task hashFn true (.openaiError m) st now repo_data).ret
      = .success ∧
    (analyze_code_task hashFn true (.openaiError m) st now repo_data).cache
      = st := by
  refine ⟨?_, ?_, ?_⟩ <;>
    simp [analyze_code_task, hmiss, analyze_code_try, celeryRunState]

/-- Witness for the amended C4 at a concrete miss. -/
theorem analyze_inference_error_behaviour_witness :
    kvGet (emptyKV (α := String)) 0
      (analysisCacheKey (fun _ => 0) (.str "snap")) = none ∧
    ((analyze_code_task (fun _ => 0) true (.openaiError "quota exceeded")
        emptyKV 0 (.str "snap")).ret = .ok ("Error: " ++ "quota exceeded") ∧
     celeryRunState (analyze_code_task (fun _ => 0) true
        (.openaiError "quota exceeded") emptyKV 0 (.str "snap")).ret
        = .success ∧
     (analyze_code_task (fun _ => 0) true (.openaiError "quota exceeded")
        emptyKV 0 (.str "snap")).cache = emptyKV) :=
  ⟨rfl, analyze_inference_error_behaviour (fun _ => 0) "quota exceeded"
    emptyKV 0 (.str "snap") rfl⟩

/-- C5 is false as stated: a lookup on an unknown handle (empty result
store) yields the very same structured response — status `"PENDING"` —
as a lookup on a genuinely pending task, so "not found" is NOT
distinguished from "pending". -/
theorem unknown_handle_reported_pending :
    get_task_status (some []) "t1"
      = .ok ⟨"t1", "PENDING", none⟩ ∧
    get_task_status (some [("t1", ⟨"PENDING", ""⟩)]) "t1"
      = .ok ⟨"t1", "PENDING", none⟩ :=
  ⟨rfl, rfl⟩

/-- C5 (amended): every task-status lookup produces a structured response
— a JSON body or a structured HTTP 500 error — never an unhandled
exception; a missing backend yields the structured 500; a known handle is
reported with its backend state string (so pending, failed and succeeded
are mutually distinct); but an unknown handle is reported as `"PENDING"`,
indistinguishable from a genuinely pending task — there is no distinct
"not found" status. -/
theorem get_task_status_behaviour
    (backend : Option (List (String × TaskRecord))) (task_id : String) :
    ((∃ body, get_task_status backend task_id = .ok body) ∨
     (∃ d, get_task_status backend task_id = .httpError 500 d)) ∧
    (backend = none →
      get_task_status backend task_id = .httpError 500
        "Internal Server Error - Failed to retrieve task status.") ∧
    (∀ store, backend = some store →
      store.find? (fun e => e.1 = task_id) = none →
      get_task_status backend task_id = .ok ⟨task_id, "PENDING", none⟩) ∧
    (∀ store p, backend = some store →
      store.find? (fun e => e.1 = task_id) = some p →
      ∃ res, get_task_status backend task_id
        = .ok ⟨task_id, p.2.state, res⟩) := by
  refine ⟨?_, ?_, ?_, ?_⟩
  · cases backend with
    | none => exact Or.inr ⟨_, rfl⟩
    | some store =>
        left
        by_cases h1 : asyncResultState store task_id = "PENDING"
        · exact ⟨⟨task_id, "PENDING", none⟩,
            by simp [get_task_status, get_task_status_try, h1]⟩
        · by_cases h2 : asyncResultState store task_id = "FAILURE"
          · exact ⟨⟨task_id, "FAILURE",
              some ((asyncResultValue store task_id).getD "")⟩,
              by simp [get_task_status, get_task_status_try, h1, h2]⟩
          · exact ⟨⟨task_id, asyncResultState store task_id,
              if asyncResultState store task_id = "SUCCESS"
                then asyncResultValue store task_id else none⟩,
              by simp [get_task_status, get_task_status_try, h1, h2]⟩
  · intro h; subst h; rfl
  · intro store h hfind; subst h
    have hs : asyncResultState store task_id = "PENDING" := by
      simp [asyncResultState, hfind]
    simp [get_task_status, get_task_status_try, hs]
  · intro store p h hfind; subst h
    have hs : asyncResultState store task_id = p.2.state := by
      simp [asyncResultState, hfind]
    by_cases h1 : p.2.state = "PENDING"
    · exact ⟨none,
        by simp [get_task_status, get_task_status_try, hs, h1]⟩
    · by_cases h2 : p.2.state = "FAILURE"
      · exact ⟨some ((asyncResultValue store task_id).getD ""),
          by simp [get_task_status, get_task_status_try, hs, h1, h2]⟩
      · exact ⟨if p.2.state = "SUCCESS"
            then asyncResultValue store task_id else none,
          by simp [get_task_status, get_task_status_try, hs, h1, h2]⟩

/-- Helper: on a cache miss, `fetch_repo_contents` either returns an error
dict and leaves the cache unchanged, or returns a Snapshot dict (keys
`repo_url`, `files`, `timestamp`) which it has written to the cache under
the reference key with TTL `CACHE_EXPIRY`. -/
theorem fetch_repo_contents_miss_cases (remote : RemoteApi)
    (st : KVStore PyVal) (now : Nat) (url : String)
    (hmiss : kvGet st now ("repo_cache:" ++ url) = none) :
    (∃ m, (fetch_repo_contents remote st now url).result = errorDict m ∧
          (fetch_repo_contents remote st now url).cache = st) ∨
    ((fetch_repo_contents remote st now url).cache
       = kvSetex st now ("repo_cache:" ++ url) CACHE_EXPIRY
           (fetch_repo_contents remote st now url).result ∧
     dictKeys (fetch_repo_contents remote st now url).result
       = ["repo_url", "files", "timestamp"]) := by
  simp only [fetch_repo_contents, hmiss]
  by_cases hval : (pyFalsyStrOpt (extract_repo_details url).1
      || pyFalsyStrOpt (extract_repo_details url).2) = true
  · simp only [hval, if_true]
    exact Or.inl ⟨_, rfl, by trivial⟩
  · simp only [hval, if_false, Bool.not_eq_true]
    generalize remote.listing _ = L
    cases L with
    | exc m => exact Or.inl ⟨_, rfl, by trivial⟩
    | resp status fd =>
      by_cases h200 : status = 200
      · simp only [h200, if_true]
        generalize process_repo_files remote.fileResp fd = P
        cases P with
        | error m => exact Or.inl ⟨_, rfl, by trivial⟩
        | ok repo_files => exact Or.inr ⟨rfl, by simp [dictKeys]⟩
      · simp only [h200, if_false]
        by_cases h403 : status = 403
        · simp only [h403, if_true]
          exact Or.inl ⟨_, rfl, by trivial⟩
        · simp only [h403, if_false]
          by_cases h404 : status = 404
          · simp only [h404, if_true]
            exact Or.inl ⟨_, rfl, by trivial⟩
          · simp only [h404, if_false]
            exact Or.inl ⟨_, rfl, by trivial⟩

/-- C6: two consecutive fetches of the same reference within the TTL
window return identical Snapshots, and the second — for ANY behaviour of
the remote API — performs zero remote listing calls and zero remote
content calls, leaving the cache untouched (the hit is terminal). -/
theorem fetch_cache_idempotent (remote remote2 : RemoteApi)
    (st : KVStore PyVal) (now now2 : Nat) (url : String)
    (hmiss : kvGet st now ("repo_cache:" ++ url) = none)
    (hsucc : dictKeys (fetch_repo_contents remote st now url).result
      = ["repo_url", "files", "timestamp"])
    (httl : now2 < now + CACHE_EXPIRY) :
    fetch_repo_contents remote2 (fetch_repo_contents remote st now url).cache
        now2 url
      = { result := (fetch_repo_contents remote st now url).result,
          cache := (fetch_repo_contents remote st now url).cache,
          listingCalls := 0, contentCalls := 0 } := by
  rcases fetch_repo_contents_miss_cases remote st now url hmiss with
    ⟨m, hm, -⟩ | ⟨hc, -⟩
  · rw [hm] at hsucc
    simp [errorDict, dictKeys] at hsucc
  · have hhit : kvGet (fetch_repo_contents remote st now url).cache now2
        ("repo_cache:" ++ url)
        = some (fetch_repo_contents remote st now url).result := by
      rw [hc]
      simp [kvGet, kvSetex, httl]
    rw [hc]
    have := fetch_repo_contents_hit remote2
      (kvSetex st now ("repo_cache:" ++ url) CACHE_EXPIRY
        (fetch_repo_contents remote st now url).result) now2 url
      (fetch_repo_contents remote st now url).result (by rw [← hc]; exact hhit)
    rw [← hc] at this
    rw [hc] at this
    exact this

/-- Witness remote for C6: a listing that succeeds with no files. -/
def remoteC6 : RemoteApi :=
  { listing := fun _ => .resp 200 [], fileResp := fun _ => .exc "unused" }

/-- Witness for C6 at a concrete first fetch and a second fetch one
time-unit later. -/
theorem fetch_cache_idempotent_witness :
    kvGet (emptyKV (α := PyVal)) 0 ("repo_cache:" ++ "https://github.com/a/b") = none ∧
    dictKeys (fetch_repo_contents remoteC6 emptyKV 0 "https://github.com/a/b").result
      = ["repo_url", "files", "timestamp"] ∧
    1 < 0 + CACHE_EXPIRY ∧
    fetch_repo_contents remoteC6
        (fetch_repo_contents remoteC6 emptyKV 0 "https://github.com/a/b").cache
        1 "https://github.com/a/b"
      = { result := (fetch_repo_contents remoteC6 emptyKV 0 "https://github.com/a/b").result,
          cache := (fetch_repo_contents remoteC6 emptyKV 0 "https://github.com/a/b").cache,
          listingCalls := 0, contentCalls := 0 } :=
  ⟨rfl, rfl, by decide,
   fetch_cache_idempotent remoteC6 remoteC6 emptyKV 0 1
     "https://github.com/a/b" rfl rfl (by decide)⟩

/-- Helper: with duplicate-free keys, the key-sort of an association list
is sorted strictly by key. -/
theorem sortByFst_sorted_strict {α : Type} (l : List (String × α))
    (hnodup : (l.map Prod.fst).Nodup) :
    List.Sorted (fun a b : String × α => a.1 < b.1) (sortByFst l) := by
  have hle : List.Pairwise
      (fun a b : String × α => (decide (a.1 ≤ b.1)) = true) (sortByFst l) :=
    List.sorted_mergeSort
      (fun a b c hab hbc => by
        simp only [decide_eq_true_eq] at *
        exact le_trans hab hbc)
      (fun a b => by
        simp only [Bool.or_eq_true, decide_eq_true_eq]
        exact le_total a.1 b.1)
      l
  have hnd : ((sortByFst l).map Prod.fst).Nodup :=
    (((List.mergeSort_perm l _).map Prod.fst).nodup_iff).2 hnodup
  have hne : List.Pairwise (fun a b : String × α => a.1 ≠ b.1) (sortByFst l) :=
    (List.pairwise_map).1 hnd
  exact (hle.and hne).imp
    (fun h => lt_of_le_of_ne (by simpa using h.1) h.2)

/-- Helper: two permuted association lists with duplicate-free keys have
the same key-sorted order. -/
theorem sortByFst_perm_eq {α : Type} (l₁ l₂ : List (String × α))
    (hperm : l₁.Perm l₂) (hnodup : (l₁.map Prod.fst).Nodup) :
    sortByFst l₁ = sortByFst l₂ := by
  haveI : IsAntisymm (String × α) (fun a b => a.1 < b.1) :=
    ⟨fun a b h1 h2 => absurd (lt_trans h1 h2) (lt_irrefl _)⟩
  refine List.eq_of_perm_of_sorted ?_ (sortByFst_sorted_strict l₁ hnodup)
    (sortByFst_sorted_strict l₂ (((hperm.map Prod.fst).nodup_iff).1 hnodup))
  exact (List.mergeSort_perm l₁ _).trans
    (hperm.trans (List.mergeSort_perm l₂ _).symm)

/-- Helper: rendering a dict's entries is a map over them. -/
theorem pyDumpsEntries_eq_map (es : List (String × PyVal)) :
    pyDumpsEntries es = es.map (fun p => (p.1, pyDumps p.2)) := by
  induction es with
  | nil => rfl
  | cons e rest ih =>
      cases e
      simp [pyDumpsEntries, ih]

/-- Helper: `json.dumps(..., sort_keys=True)` renders permuted dicts with
duplicate-free keys identically. -/
theorem pyDumps_dict_perm (es₁ es₂ : List (String × PyVal))
    (hperm : es₁.Perm es₂) (hnodup : (es₁.map Prod.fst).Nodup) :
    pyDumps (.dict es₁) = pyDumps (.dict es₂) := by
  have hperm2 : (pyDumpsEntries es₁).Perm (pyDumpsEntries es₂) := by
    rw [pyDumpsEntries_eq_map, pyDumpsEntries_eq_map]
    exact hperm.map _
  have hnodup2 : ((pyDumpsEntries es₁).map Prod.fst).Nodup := by
    rw [pyDumpsEntries_eq_map]
    simpa [List.map_map, Function.comp] using hnodup
  have hsort := sortByFst_perm_eq _ _ hperm2 hnodup2
  simp [pyDumps, hsort]

/-- C7: the analysis cache key is construction-order independent: two
Snapshot dicts with the same reference and timestamp whose `files`
mappings hold the same path-to-content entries (a permutation with
duplicate-free paths — what building a Python dict from the same pairs in
different orders produces) get the same `ai_analysis:` cache key. -/
theorem analysisCacheKey_order_independent (hashFn : String → Int)
    (url : String) (ts : Nat) (files₁ files₂ : List (String × PyVal))
    (hperm : files₁.Perm files₂) (hnodup : (files₁.map Prod.fst).Nodup) :
    analysisCacheKey hashFn (.dict [("repo_url", .str url),
      ("files", .dict files₁), ("timestamp", .num ts)])
    = analysisCacheKey hashFn (.dict [("repo_url", .str url),
      ("files", .dict files₂), ("timestamp", .num ts)]) := by
  have hperm2 : (pyDumpsEntries files₁).Perm (pyDumpsEntries files₂) := by
    rw [pyDumpsEntries_eq_map, pyDumpsEntries_eq_map]
    exact hperm.map _
  have hnodup2 : ((pyDumpsEntries files₁).map Prod.fst).Nodup := by
    rw [pyDumpsEntries_eq_map]
    simpa [List.map_map, Function.comp] using hnodup
  have hsort := sortByFst_perm_eq _ _ hperm2 hnodup2
  unfold analysisCacheKey
  simp [pyDumps, pyDumpsEntries, hsort]

/-- Witness for C7: the same two files inserted in the two orders. -/
theorem analysisCacheKey_order_independent_witness :
    ([("a.txt", PyVal.str "1"), ("b.txt", PyVal.str "2")].Perm
      [("b.txt", PyVal.str "2"), ("a.txt", PyVal.str "1")]) ∧
    ([("a.txt", PyVal.str "1"), ("b.txt", PyVal.str "2")].map Prod.fst).Nodup ∧
    analysisCacheKey (fun _ => 0) (.dict [("repo_url", .str "u"),
      ("files", .dict [("a.txt", PyVal.str "1"), ("b.txt", PyVal.str "2")]),
      ("timestamp", .num 7)])
    = analysisCacheKey (fun _ => 0) (.dict [("repo_url", .str "u"),
      ("files", .dict [("b.txt", PyVal.str "2"), ("a.txt", PyVal.str "1")]),
      ("timestamp", .num 7)]) :=
  ⟨List.Perm.swap ("b.txt", PyVal.str "2") ("a.txt", PyVal.str "1") [],
   by decide,
   analysisCacheKey_order_independent (fun _ => 0) "u" 7
     [("a.txt", PyVal.str "1"), ("b.txt", PyVal.str "2")]
     [("b.txt", PyVal.str "2"), ("a.txt", PyVal.str "1")]
     (List.Perm.swap ("b.txt", PyVal.str "2") ("a.txt", PyVal.str "1") [])
     (by decide)⟩

/-- C8 (bug input): a remote whose listing call returns HTTP 404. -/
def remote404 : RemoteApi :=
  { listing := fun _ => .resp 404 [], fileResp := fun _ => .exc "unused" }

/-- C8 (bug): on a 404 listing, `fetch_repo_contents` RETURNS the
`{"error": "Repository not found. ..."}` dict, so the Celery fetch task
ends in SUCCESS — not FAILURE.  The Gateway's `fetch_task.failed()` check
is therefore false, and instead of returning an error it enqueues the
Analysis Task on the error dict and answers "AI analysis started" — the
opposite of its own docstring's "If fetch fails, ... returning an error". -/
theorem gateway_enqueues_analysis_on_not_found :
    (fetch_repo_contents remote404 emptyKV 0
        "https://github.com/acme/missing").result
      = errorDict "Repository not found. Check if the URL is correct." ∧
    celeryRunState (fetch_repo_contents_task remote404 emptyKV 0
        "https://github.com/acme/missing") = .success ∧
    analyze_repo (fun _ => .succeeded
        (errorDict "Repository not found. Check if the URL is correct."))
      = ([.enqueueFetch, .checkState,
          .enqueueAnalysis
            (errorDict "Repository not found. Check if the URL is correct.")],
         .taskStarted
           (errorDict "Repository not found. Check if the URL is correct.")
           "AI analysis started") :=
  ⟨rfl, rfl, rfl⟩

/-- C9: for every URL, on a cache miss either the reference-parse guard
fires — the fetch fails fast with the malformed-reference error dict and
makes zero listing and zero content calls — or parsing produced an owner
and a name that are both non-empty (the guard treats `None` and `""` as
falsy). -/
theorem fetch_reference_parse_guard (remote : RemoteApi)
    (st : KVStore PyVal) (now : Nat) (url : String)
    (hmiss : kvGet st now ("repo_cache:" ++ url) = none) :
    ((fetch_repo_contents remote st now url).result
        = errorDict "Invalid GitHub repository URL format." ∧
     (fetch_repo_contents remote st now url).listingCalls = 0 ∧
     (fetch_repo_contents remote st now url).contentCalls = 0) ∨
    (∃ o n, extract_repo_details url = (some o, some n)
      ∧ o ≠ "" ∧ n ≠ "") := by
  by_cases hval : (pyFalsyStrOpt (extract_repo_details url).1
      || pyFalsyStrOpt (extract_repo_details url).2) = true
  · left
    simp only [fetch_repo_contents, hmiss, hval, if_true]
    refine ⟨?_, ?_, ?_⟩ <;> trivial
  · right
    rcases hext : extract_repo_details url with ⟨o, n⟩
    rw [hext] at hval
    simp only [Bool.or_eq_true, not_or, Bool.not_eq_true] at hval
    obtain ⟨ho, hn⟩ := hval
    cases o with
    | none => simp [pyFalsyStrOpt] at ho
    | some s =>
      cases n with
      | none => simp [pyFalsyStrOpt] at hn
      | some t =>
        simp only [pyFalsyStrOpt, decide_eq_false_iff_not] at ho hn
        exact ⟨s, t, rfl, ho, hn⟩

/-- Witness for C9 at a URL with a single path segment (parse fails, fetch
fails fast with zero remote calls). -/
theorem fetch_reference_parse_guard_witness :
    kvGet (emptyKV (α := PyVal)) 0 ("repo_cache:" ++ "x") = none ∧
    (((fetch_repo_contents remote404 emptyKV 0 "x").result
        = errorDict "Invalid GitHub repository URL format." ∧
      (fetch_repo_contents remote404 emptyKV 0 "x").listingCalls = 0 ∧
      (fetch_repo_contents remote404 emptyKV 0 "x").contentCalls = 0) ∨
     (∃ o n, extract_repo_details "x" = (some o, some n)
       ∧ o ≠ "" ∧ n ≠ "")) :=
  ⟨rfl, fetch_reference_parse_guard remote404 emptyKV 0 "x" rfl⟩

/-- C10: for every repository URL, cache state and remote behaviour (any
listing status or a raised transport exception), `fetch_repo_contents`
returns a dict and never propagates an exception (it is a total function
of the modelled inputs): a cache hit returns the cached value before any
parsing or network call (zero listing and content calls, cache
unchanged); on a miss the result is either the Snapshot dict with exactly
the keys `repo_url`, `files`, `timestamp`, or an `{"error": msg}` dict. -/
theorem fetch_repo_contents_total_shape (remote : RemoteApi)
    (st : KVStore PyVal) (now : Nat) (url : String) :
    (∀ v, kvGet st now ("repo_cache:" ++ url) = some v →
      fetch_repo_contents remote st now url
        = { result := v, cache := st,
            listingCalls := 0, contentCalls := 0 }) ∧
    (kvGet st now ("repo_cache:" ++ url) = none →
      dictKeys (fetch_repo_contents remote st now url).result
          = ["repo_url", "files", "timestamp"] ∨
      ∃ m, (fetch_repo_contents remote st now url).result = errorDict m) := by
  constructor
  · intro v hv
    exact fetch_repo_contents_hit remote st now url v hv
  · intro hmiss
    rcases fetch_repo_contents_miss_cases remote st now url hmiss with
      ⟨m, hm, -⟩ | ⟨-, hk⟩
    · exact Or.inr ⟨m, hm⟩
    · exact Or.inl hk
